import Mathlib

/-
Shallow embedding of the cis-benchmark-download repository
(src/cis_access.py and src/analyse_list.py).

Modelling conventions:
  * JSON values are the inductive `Json`; Python floats (timestamps) are
    modelled as exact rationals.
  * HTTP traffic is modelled by a script: a list of `HttpResult` values
    consumed one per request, in order.  An empty script behaves like a
    network failure (requests raises RequestException).
  * Side effects (HTTP requests, file writes) are recorded in an event
    trace; every function returns (result, remaining script, events).
  * Python exceptions that a function lets escape are `Except.error`;
    caught exceptions are folded into the source's sentinel returns.
-/

namespace Cis

/-- JSON values as produced by Python's json module; numbers are modelled
as exact rationals (Python floats and ints). -/
inductive Json where
  | null
  | bool (b : Bool)
  | num (q : ℚ)
  | str (s : String)
  | arr (elems : List Json)
  | obj (fields : List (String × Json))

mutual

/-- Structural equality on JSON values (Python ==). -/
def jsonBeq : Json → Json → Bool
  | .null, .null => true
  | .bool a, .bool b => a == b
  | .num a, .num b => a == b
  | .str a, .str b => a == b
  | .arr xs, .arr ys => jsonBeqList xs ys
  | .obj xs, .obj ys => jsonBeqFields xs ys
  | _, _ => false

/-- Elementwise equality on JSON arrays. -/
def jsonBeqList : List Json → List Json → Bool
  | [], [] => true
  | x :: xs, y :: ys => jsonBeq x y && jsonBeqList xs ys
  | _, _ => false

/-- Fieldwise equality on JSON objects. -/
def jsonBeqFields : List (String × Json) → List (String × Json) → Bool
  | [], [] => true
  | (k1, v1) :: xs, (k2, v2) :: ys => k1 == k2 && jsonBeq v1 v2 && jsonBeqFields xs ys
  | _, _ => false

end

instance : BEq Json := ⟨jsonBeq⟩

/-- Python exceptions that matter to this code base. -/
inductive PyErr where
  | requestExc (msg : String)
  | jsonDecodeErr
  | typeErr (msg : String)
  | keyErr (key : String)

/-- An HTTP response: status code, body text, and the result of parsing
the body as JSON (`none` when the body is not valid JSON). -/
structure HttpResponse where
  status : Nat
  text : String
  jsonBody : Option Json

/-- One scripted outcome of an HTTP request: a response, or a transport
failure (requests raises RequestException). -/
inductive HttpResult where
  | resp (r : HttpResponse)
  | netErr (msg : String)

/-- Observable side effects of a call, in order of occurrence. -/
inductive Event where
  | httpGet (url : String) (headers : List (String × Json))
  | httpPost (url : String) (contentType : String) (body : String)
  | fileWriteJson (name : String) (indentWidth : Nat) (content : Json)
  | fileWriteBytes (name : String) (content : String)
  | fileWriteText (name : String) (content : String)

/-- Result shape of an effectful call: outcome (or escaped exception),
remaining HTTP script, emitted events. -/
abbrev PyRes (α : Type) := Except PyErr α × List HttpResult × List Event

/-- The fixed environment of one process invocation: the file system
visible to the program and the current clock. -/
structure World where
  files : String → Option String
  tokenFile : Option (Option Json)
  now : ℚ
  today : String

/-- Python str.lower, on the characters of the string. -/
def py_lower (s : String) : String := String.mk (s.toList.map Char.toLower)

/-- Python str.endswith. -/
def py_endswith (s suf : String) : Bool := suf.toList.isSuffixOf s.toList

/-- Python str.startswith. -/
def py_startswith (s pre : String) : Bool := pre.toList.isPrefixOf s.toList

/-- Python str.strip(): drop whitespace from both ends. -/
def py_strip (s : String) : String :=
  String.mk (((s.toList.dropWhile Char.isWhitespace).reverse.dropWhile
    Char.isWhitespace).reverse)

/-- Python slicing s[:n]. -/
def py_take (s : String) (n : Nat) : String := String.mk (s.toList.take n)

/-- Substring containment on character lists (Python `needle in hay`). -/
def teilzeichenkette (needle : List Char) : List Char → Bool
  | [] => needle.isEmpty
  | c :: rest => needle.isPrefixOf (c :: rest) || teilzeichenkette needle rest

/-- Python truthiness of a JSON value. -/
def pyTruthy : Json → Bool
  | .null => false
  | .bool b => b
  | .num q => q != 0
  | .str s => s != ""
  | .arr xs => !xs.isEmpty
  | .obj kvs => !kvs.isEmpty

/-- Python `k in j` for a string k; on objects it is key membership, on
arrays element membership, on strings substring containment; other
receivers raise TypeError. -/
def pyIn (k : String) (j : Json) : Except PyErr Bool :=
  match j with
  | .obj kvs => .ok (kvs.any (fun kv => kv.1 == k))
  | .arr xs => .ok (xs.any (fun x => x == Json.str k))
  | .str s => .ok (teilzeichenkette k.toList s.toList)
  | _ => .error (.typeErr "argument is not iterable")

/-- Python `j[k]` for a string k: object field access; everything else
raises (lists require integer indices). -/
def pyGetItem (j : Json) (k : String) : Except PyErr Json :=
  match j with
  | .obj kvs =>
    match kvs.lookup k with
    | some v => .ok v
    | none => .error (.keyErr k)
  | _ => .error (.typeErr "indices must be integers")

/-- Python `j.get(k, default)`: only dicts have .get. -/
def pyGetAttr (j : Json) (k : String) (dflt : Json) : Except PyErr Json :=
  match j with
  | .obj kvs => .ok ((kvs.lookup k).getD dflt)
  | _ => .error (.typeErr "object has no attribute get")

/-- Numeric coercion used by `expires_at - 30`; Python bools are ints,
anything non-numeric raises TypeError. -/
def pyNum : Json → Except PyErr ℚ
  | .num q => .ok q
  | .bool b => .ok (if b then 1 else 0)
  | _ => .error (.typeErr "unsupported operand type")

/-- Module constant BASE_URL of cis_access.py. -/
def BASE_URL : String := "https://workbench.cisecurity.org/api/vendor/v1"

/-- Module constant LICENSE_ENDPOINT of cis_access.py. -/
def LICENSE_ENDPOINT : String := "/license"

/-- Module constant TOKEN_FILE of cis_access.py. -/
def TOKEN_FILE : String := "securesuite_token.json"

/-- Module constant BENCHMARK_LIST of cis_access.py. -/
def BENCHMARK_LIST : String := "available_benchmarks.json"

/-- URL of the license-exchange endpoint. -/
def lizenz_url : String := BASE_URL ++ LICENSE_ENDPOINT

/-- URL of the token-check endpoint. -/
def token_check_url : String := BASE_URL ++ "/token/check"

/-- URL of the benchmark listing endpoint. -/
def benchmarks_url : String := BASE_URL ++ "/benchmarks"

/-- URL of the benchmark detail endpoint for one workbench id. -/
def benchmark_details_url (workbench_id : String) : String :=
  BASE_URL ++ "/benchmarks/" ++ workbench_id

/-- URL of the benchmark download endpoint for one workbench id. -/
def benchmark_download_url (workbench_id : String) : String :=
  BASE_URL ++ "/benchmarks/" ++ workbench_id ++ "/JSON"

/-- cis_access.py lines 29-42: derive the Content-Type from the file name
extension, else sniff the (stripped) content, else default to XML. -/
def content_type_bestimmen (dateipfad inhalt : String) : String :=
  if py_endswith (py_lower dateipfad) ".xml" then "application/xml"
  else if py_endswith (py_lower dateipfad) ".json" then "application/json"
  else if py_startswith (py_strip inhalt) "<" then "application/xml"
  else if py_startswith (py_strip inhalt) "\x7b" then "application/json"
  else "application/xml"

/-- cis_access.py lizenz_aus_datei_lesen: read the license file and
classify its content type; a missing or unreadable file yields
(None, None). -/
def lizenz_aus_datei_lesen (w : World) (dateipfad : String) :
    Option String × Option String :=
  match w.files dateipfad with
  | none => (none, none)
  | some inhalt => (some inhalt, some (content_type_bestimmen dateipfad inhalt))

/-- cis_access.py token_speichern: json.dump of the record to TOKEN_FILE
(no indent); a failed write is only logged, so the event is the whole
observable behaviour. -/
def token_speichern (token_info : Json) : List Event :=
  [.fileWriteJson TOKEN_FILE 0 token_info]

/-- cis_access.py token_laden: None when the file is absent or
unreadable, otherwise the parsed record. -/
def token_laden (w : World) : Option Json :=
  match w.tokenFile with
  | none => none
  | some none => none
  | some (some j) => some j

/-- cis_access.py lines 85-88: the record written on acquisition,
expires_at = now + 20 minutes. -/
def token_record (tok : Json) (jetzt : ℚ) : Json :=
  .obj [("token", tok), ("expires_at", .num (jetzt + 1200))]

/-- cis_access.py neues_token_abrufen: POST the license key to /license;
on 200 with a token field, build the record, persist it and return it;
any handled failure yields None. -/
def neues_token_abrufen (w : World) (lizenzschluessel : String)
    (content_type : String) (script : List HttpResult) : PyRes (Option Json) :=
  let ereignis := Event.httpPost lizenz_url content_type lizenzschluessel
  match script with
  | [] => (.ok none, [], [ereignis])
  | .netErr _ :: rest => (.ok none, rest, [ereignis])
  | .resp r :: rest =>
    if r.status ≠ 200 then (.ok none, rest, [ereignis])
    else
      match r.jsonBody with
      | none => (.ok none, rest, [ereignis])
      | some token_daten =>
        match pyIn "token" token_daten with
        | .error e => (.error e, rest, [ereignis])
        | .ok hat =>
          if hat then
            match pyGetItem token_daten "token" with
            | .error e => (.error e, rest, [ereignis])
            | .ok tok =>
              (.ok (some (token_record tok w.now)), rest,
                ereignis :: token_speichern (token_record tok w.now))
          else (.ok none, rest, [ereignis])

/-- cis_access.py token_ueberpruefen: GET /token/check with the token
header; 200 maps the body status message to True/False, 401 is False,
anything else (or a network/parse failure) is None.  A TypeError from a
non-container body escapes (only RequestException and JSONDecodeError
are caught). -/
def token_ueberpruefen (token : Json) (script : List HttpResult) :
    PyRes (Option Bool) :=
  let ereignis := Event.httpGet token_check_url [("X-SecureSuite-Token", token)]
  match script with
  | [] => (.ok none, [], [ereignis])
  | .netErr _ :: rest => (.ok none, rest, [ereignis])
  | .resp r :: rest =>
    if r.status = 200 then
      match r.jsonBody with
      | none => (.ok none, rest, [ereignis])
      | some antwort =>
        match pyIn "status" antwort with
        | .error e => (.error e, rest, [ereignis])
        | .ok hat =>
          if hat then
            match pyGetItem antwort "status" with
            | .error e => (.error e, rest, [ereignis])
            | .ok st =>
              (.ok (some (st == Json.str "Token Validation Check Successful.")),
                rest, [ereignis])
          else (.ok (some false), rest, [ereignis])
    else if r.status = 401 then (.ok (some false), rest, [ereignis])
    else (.ok none, rest, [ereignis])

/-- cis_access.py ist_token_gueltig: local expiry check with a 30 second
margin, then the server-side check; a falsy or field-less record is
immediately False. -/
def ist_token_gueltig (w : World) (token_info : Option Json)
    (script : List HttpResult) : PyRes (Option Bool) :=
  match token_info with
  | none => (.ok (some false), script, [])
  | some ti =>
    if pyTruthy ti = false then (.ok (some false), script, [])
    else
      match pyIn "expires_at" ti with
      | .error e => (.error e, script, [])
      | .ok hat =>
        if hat = false then (.ok (some false), script, [])
        else
          match pyGetItem ti "expires_at" with
          | .error e => (.error e, script, [])
          | .ok ablauf =>
            match pyNum ablauf with
            | .error e => (.error e, script, [])
            | .ok az =>
              if w.now > az - 30 then (.ok (some false), script, [])
              else
                match pyGetItem ti "token" with
                | .error e => (.error e, script, [])
                | .ok tok => token_ueberpruefen tok script

/-- cis_access.py token_abrufen lines 206-215: the acquisition tail that
runs when there is no valid cached token or a refresh is forced. -/
def token_abrufen_erwerb (w : World) (lizenz_dateipfad : Option String)
    (script : List HttpResult) : PyRes (Option Json) :=
  match lizenz_dateipfad with
  | none => (.ok none, script, [])
  | some pfad =>
    if pfad = "" then (.ok none, script, [])
    else
      match lizenz_aus_datei_lesen w pfad with
      | (some schluessel, some ct) =>
        if schluessel = "" ∨ ct = "" then (.ok none, script, [])
        else
          match neues_token_abrufen w schluessel ct script with
          | (.ok (some ti), rest, evs) =>
            match pyGetItem ti "token" with
            | .ok tok => (.ok (some tok), rest, evs)
            | .error e => (.error e, rest, evs)
          | (.ok none, rest, evs) => (.ok none, rest, evs)
          | (.error e, rest, evs) => (.error e, rest, evs)
      | _ => (.ok none, script, [])

/-- cis_access.py token_abrufen: unless a refresh is forced, a present
and valid cached record short-circuits; otherwise acquire a new token
from the license file (when a path was given). -/
def token_abrufen (w : World) (lizenz_dateipfad : Option String)
    (force_refresh : Bool) (script : List HttpResult) : PyRes (Option Json) :=
  if force_refresh then token_abrufen_erwerb w lizenz_dateipfad script
  else
    match token_laden w with
    | none => token_abrufen_erwerb w lizenz_dateipfad script
    | some ti =>
      if pyTruthy ti = false then token_abrufen_erwerb w lizenz_dateipfad script
      else
        match ist_token_gueltig w (some ti) script with
        | (.ok g, rest, evs) =>
          if g = some true then
            match pyGetItem ti "token" with
            | .ok tok => (.ok (some tok), rest, evs)
            | .error e => (.error e, rest, evs)
          else
            match token_abrufen_erwerb w lizenz_dateipfad rest with
            | (res2, rest2, evs2) => (res2, rest2, evs ++ evs2)
        | (.error e, rest, evs) => (.error e, rest, evs)

/-- cis_access.py handle_error: on a 401 try a forced refresh and signal
a retry with the new token; otherwise report a permanent failure.  (This
helper is defined in the source but never called.) -/
def handle_error (w : World) (response_status : Nat)
    (script : List HttpResult) : PyRes Json :=
  if response_status = 401 then
    match token_abrufen w none true script with
    | (.ok (some t), rest, evs) =>
      if pyTruthy t then
        (.ok (.obj [("token", t), ("retry", .bool true)]), rest, evs)
      else (.ok (.obj [("error", .str "Permanent authentication failure")]), rest, evs)
    | (.ok none, rest, evs) =>
      (.ok (.obj [("error", .str "Permanent authentication failure")]), rest, evs)
    | (.error e, rest, evs) => (.error e, rest, evs)
  else (.ok (.obj [("error", .str "Permanent authentication failure")]), script, [])

/-- Message of the TypeError raised when the 401 path re-invokes
get_benchmark_details without its required token argument. -/
def fehlendes_argument : String :=
  "get_benchmark_details() missing 1 required positional argument: token"

/-- cis_access.py get_benchmark_details: GET the detail endpoint; on 401
it calls token_abrufen(force_refresh=True) without a license path and
then re-invokes get_benchmark_details(workbench_id) with the token
argument omitted, which raises a TypeError that the except clause (it
catches only RequestException) lets escape; on every other status it
prints response.json() -- the `return response.json()` line is commented
out, so the function returns None (a non-JSON body raises an uncaught
JSONDecodeError). -/
def get_benchmark_details (w : World) (workbench_id : String) (token : Json)
    (script : List HttpResult) : PyRes (Option Json) :=
  let ereignis := Event.httpGet (benchmark_details_url workbench_id)
      [("X-SecureSuite-Token", token)]
  match script with
  | [] => (.ok none, [], [ereignis])
  | .netErr _ :: rest => (.ok none, rest, [ereignis])
  | .resp r :: rest =>
    if r.status = 401 then
      match token_abrufen w none true rest with
      | (_, rest2, evs2) =>
        (.error (.typeErr fehlendes_argument), rest2, ereignis :: evs2)
    else
      match r.jsonBody with
      | none => (.error .jsonDecodeErr, rest, [ereignis])
      | some _ => (.ok none, rest, [ereignis])

/-- cis_access.py download_benchmark: GET the download endpoint; its 401
path is identical to get_benchmark_details (it even re-invokes
get_benchmark_details, not itself, again without the token argument);
for any other status it writes response.content to the dated zip file
and returns that file name -- there is no status validation. -/
def download_benchmark (w : World) (workbench_id : String) (token : Json)
    (script : List HttpResult) : PyRes (Option String) :=
  let ereignis := Event.httpGet (benchmark_download_url workbench_id)
      [("X-SecureSuite-Token", token), ("Accept", Json.str "application/zip")]
  match script with
  | [] => (.ok none, [], [ereignis])
  | .netErr _ :: rest => (.ok none, rest, [ereignis])
  | .resp r :: rest =>
    if r.status = 401 then
      match token_abrufen w none true rest with
      | (_, rest2, evs2) =>
        (.error (.typeErr fehlendes_argument), rest2, ereignis :: evs2)
    else
      let dateiname := "benchmark_" ++ workbench_id ++ "_" ++ w.today ++ ".zip"
      (.ok (some dateiname), rest, [ereignis, .fileWriteBytes dateiname r.text])

/-- Headers sent by list_available_benchmarks: the token header only when
a truthy token was passed. -/
def benchmark_kopfzeilen (token : Option Json) : List (String × Json) :=
  match token with
  | some t => if pyTruthy t then [("X-SecureSuite-Token", t)] else []
  | none => []

/-- cis_access.py list_available_benchmarks: GET /benchmarks; any non-200
status, parse failure or missing Benchmarks field is False; on success
the parsed body is re-serialized (json.dump, indent=2) to
BENCHMARK_LIST and the call returns True.  The blanket except clause
turns every escaped exception into False. -/
def list_available_benchmarks (ausfuehrlich : Bool) (token : Option Json)
    (script : List HttpResult) : PyRes Bool :=
  let ereignis := Event.httpGet benchmarks_url (benchmark_kopfzeilen token)
  match script with
  | [] => (.ok false, [], [ereignis])
  | .netErr _ :: rest => (.ok false, rest, [ereignis])
  | .resp r :: rest =>
    if r.status ≠ 200 then (.ok false, rest, [ereignis])
    else
      match r.jsonBody with
      | none => (.ok false, rest, [ereignis])
      | some daten =>
        match pyIn "Benchmarks" daten with
        | .error _ => (.ok false, rest, [ereignis])
        | .ok hat =>
          if hat then
            (.ok true, rest, [ereignis, .fileWriteJson BENCHMARK_LIST 2 daten])
          else (.ok false, rest, [ereignis])

/-- Python str.ljust via format spec `:<n`: pad with spaces up to n. -/
def leftJust (s : String) (breite : Nat) : String :=
  if s.length < breite then s ++ String.mk (List.replicate (breite - s.length) ' ') else s

/-- Python format(value, `<n`) as used in analyse_list.py rows: strings
and integers are padded; other values are not modelled faithfully (the
data in scope only carries strings and integers) and raise TypeError. -/
def pyFormatL (j : Json) (breite : Nat) : Except PyErr String :=
  match j with
  | .str s => .ok (leftJust s breite)
  | .num q =>
    if q.den = 1 then .ok (leftJust (toString q.num) breite)
    else .error (.typeErr "float formatting not modelled")
  | _ => .error (.typeErr "unsupported format string")

/-- analyse_list.py truncation idiom: s[:cut] + ... when len(s) > breite. -/
def kuerzen (s : String) (schnitt breite : Nat) : String :=
  if s.length > breite then py_take s schnitt ++ "..." else s

/-- Require every JSON element to be a string (str.join raises TypeError
otherwise). -/
def alleStrings : List Json → Except PyErr (List String)
  | [] => .ok []
  | .str s :: rest => (alleStrings rest).map (fun ss => s :: ss)
  | _ :: _ => .error (.typeErr "sequence item: expected str instance")

/-- Python sep.join(j): join a list of strings; joining a string joins
its characters; other receivers raise TypeError. -/
def pyJoin (sep : String) (j : Json) : Except PyErr String :=
  match j with
  | .arr xs => (alleStrings xs).map (String.intercalate sep)
  | .str s => .ok (String.intercalate sep (s.toList.map (fun c => String.mk [c])))
  | _ => .error (.typeErr "can only join an iterable")

/-- analyse_list.py lines 44-47: collect profile[profileTitle] for every
profile that has the key. -/
def profiltitel_sammeln : List Json → Except PyErr (List Json)
  | [] => .ok []
  | p :: rest =>
    match pyIn "profileTitle" p with
    | .error e => .error e
    | .ok true =>
      match pyGetItem p "profileTitle" with
      | .error e => .error e
      | .ok t => (profiltitel_sammeln rest).map (fun ts => t :: ts)
    | .ok false => profiltitel_sammeln rest

/-- analyse_list.py lines 31-59, one loop iteration: None when the
benchmark is skipped (assessmentStatus equal to Manual), otherwise the
formatted table row; field access on a non-dict or ill-typed fields
raise, as in the source. -/
def zeile_fuer_benchmark (b : Json) : Except PyErr (Option String) :=
  match b with
  | .obj kvs =>
    let workbench_id := (kvs.lookup "workbenchId").getD (.str "N/A")
    let title := (kvs.lookup "benchmarkTitle").getD (.str "N/A")
    let version := (kvs.lookup "benchmarkVersion").getD (.str "N/A")
    let status := (kvs.lookup "assessmentStatus").getD (.str "N/A")
    if status == Json.str "Manual" then .ok none
    else
      match pyJoin ", " ((kvs.lookup "availableFormats").getD (.arr [.str "N/A"])) with
      | .error e => .error e
      | .ok formats =>
        match (match (kvs.lookup "profiles").getD (.arr []) with
               | .arr ps => profiltitel_sammeln ps
               | _ => .error (.typeErr "not iterable") : Except PyErr (List Json)) with
        | .error e => .error e
        | .ok titelJson =>
          match alleStrings (if titelJson.isEmpty then [.str "N/A"] else titelJson) with
          | .error e => .error e
          | .ok titel =>
            let profiles := String.intercalate ", " titel
            match pyFormatL workbench_id 15 with
            | .error e => .error e
            | .ok c1 =>
              match (match title with
                     | .str t => .ok (kuerzen t 47 50)
                     | _ => .error (.typeErr "len of non-string") : Except PyErr String) with
              | .error e => .error e
              | .ok t2 =>
                match pyFormatL version 15 with
                | .error e => .error e
                | .ok c3 =>
                  match pyFormatL status 15 with
                  | .error e => .error e
                  | .ok c4 =>
                    .ok (some (c1 ++ " " ++ leftJust t2 50 ++ " " ++ c3 ++ " " ++
                      c4 ++ " " ++ leftJust (kuerzen formats 27 30) 30 ++ " " ++
                      leftJust (kuerzen profiles 47 50) 50 ++ "\n"))
  | _ => .error (.typeErr "object has no attribute get")

/-- Concatenation of a list of strings (reasoning-friendly form of the
accumulated writes). -/
def konkat : List String → String
  | [] => ""
  | s :: rest => s ++ konkat rest

/-- analyse_list.py lines 31-59, the loop: append each produced row to
the already written output; an exception aborts the loop, leaving the
partial output in the file and failing the call. -/
def zeilen_schreiben (acc : String) : List Json → String × Bool
  | [] => (acc, true)
  | b :: rest =>
    match zeile_fuer_benchmark b with
    | .error _ => (acc, false)
    | .ok none => zeilen_schreiben acc rest
    | .ok (some z) => zeilen_schreiben (acc ++ z) rest

/-- The two header lines written by analyse_benchmarks. -/
def kopfzeile : String :=
  leftJust "workbenchId" 15 ++ " " ++ leftJust "benchmarkTitle" 50 ++ " " ++
  leftJust "benchmarkVersion" 15 ++ " " ++ leftJust "assessmentStatus" 15 ++ " " ++
  leftJust "availableFormats" 30 ++ " " ++ leftJust "profiles" 50 ++ "\n" ++
  String.mk (List.replicate 175 '-') ++ "\n"

/-- analyse_list.py analyse_benchmarks: the input is the observed state
of the named file (absent, unparsable, or parsed JSON); the result is
the return value and the write to benchmarks.txt.  Iterating a
non-array Benchmarks value is folded into the abort path. -/
def analyse_benchmarks (datei : Option (Option Json)) : Bool × List Event :=
  match datei with
  | none => (false, [])
  | some none => (false, [])
  | some (some daten) =>
    match pyIn "Benchmarks" daten with
    | .error _ => (false, [])
    | .ok false => (false, [])
    | .ok true =>
      match pyGetItem daten "Benchmarks" with
      | .error _ => (false, [.fileWriteText "benchmarks.txt" kopfzeile])
      | .ok benchListe =>
        match benchListe with
        | .arr bs =>
          match zeilen_schreiben "" bs with
          | (inhalt, erfolg) =>
            (erfolg, [.fileWriteText "benchmarks.txt" (kopfzeile ++ inhalt)])
        | _ => (false, [.fileWriteText "benchmarks.txt" kopfzeile])

/-- The rows the loop produces, as a list (skipped and aborting
benchmarks contribute nothing). -/
def zeilen_liste : List Json → List String
  | [] => []
  | b :: rest =>
    match zeile_fuer_benchmark b with
    | .ok (some z) => z :: zeilen_liste rest
    | _ => zeilen_liste rest

/-- The assessmentStatus a benchmark entry carries, with the source's
N/A default. -/
def benchmark_status (b : Json) : Json :=
  match b with
  | .obj kvs => (kvs.lookup "assessmentStatus").getD (.str "N/A")
  | _ => .str "N/A"

/-- True when the loop iteration for b runs without raising. -/
def zeile_ok (b : Json) : Bool :=
  match zeile_fuer_benchmark b with
  | .ok _ => true
  | .error _ => false

/-- Python json.dumps escaping for the characters that occur in this
development (quote, backslash, common control characters). -/
def json_escape_zeichen (c : Char) : String :=
  if c = '"' then "\\\""
  else if c = '\\' then "\\\\"
  else if c = '\n' then "\\n"
  else if c = '\t' then "\\t"
  else if c = '\r' then "\\r"
  else String.mk [c]

/-- Python json.dumps rendering of a string literal. -/
def json_string_dump (s : String) : String :=
  "\"" ++ String.join (s.toList.map json_escape_zeichen) ++ "\""

/-- Rendering of a JSON number: integers as Python prints them;
non-integral rationals (Python floats) are rendered num/den, which no
comparison in this development relies on. -/
def rat_dump (q : ℚ) : String :=
  if q.den = 1 then toString q.num else toString q.num ++ "/" ++ toString q.den

/-- Indentation prefix at nesting depth n for json.dump(indent=2). -/
def einrueckung (n : Nat) : String := String.mk (List.replicate (2 * n) ' ')

mutual

/-- Python json.dumps(j, indent=2, ensure_ascii=False): empty containers
compact, one element per line otherwise, item separator comma, key
separator colon-space. -/
def json_dump_i2 : Json → Nat → String
  | .null, _ => "null"
  | .bool true, _ => "true"
  | .bool false, _ => "false"
  | .num q, _ => rat_dump q
  | .str s, _ => json_string_dump s
  | .arr [], _ => "[]"
  | .arr (x :: xs), stufe =>
    "[\n" ++ json_dump_elemente (x :: xs) (stufe + 1) ++ "\n" ++
      einrueckung stufe ++ "]"
  | .obj [], _ => "\x7b\x7d"
  | .obj (kv :: kvs), stufe =>
    "\x7b\n" ++ json_dump_felder (kv :: kvs) (stufe + 1) ++ "\n" ++
      einrueckung stufe ++ "\x7d"

/-- Array elements of json.dumps(indent=2), comma-newline separated. -/
def json_dump_elemente : List Json → Nat → String
  | [], _ => ""
  | [x], stufe => einrueckung stufe ++ json_dump_i2 x stufe
  | x :: y :: xs, stufe =>
    einrueckung stufe ++ json_dump_i2 x stufe ++ ",\n" ++
      json_dump_elemente (y :: xs) stufe

/-- Object fields of json.dumps(indent=2), comma-newline separated. -/
def json_dump_felder : List (String × Json) → Nat → String
  | [], _ => ""
  | [(k, v)], stufe => einrueckung stufe ++ json_string_dump k ++ ": " ++ json_dump_i2 v stufe
  | (k, v) :: kv2 :: kvs, stufe =>
    einrueckung stufe ++ json_string_dump k ++ ": " ++ json_dump_i2 v stufe ++ ",\n" ++
      json_dump_felder (kv2 :: kvs) stufe

end

/-- Text content of the file json.dump(daten, f, indent=2) writes. -/
def json_dump_indent2 (j : Json) : String := json_dump_i2 j 0

/-- Unfolding of == on string-shaped JSON values. -/
@[simp] theorem beq_json_str (s t : String) :
    (Json.str s == Json.str t) = (s == t) := rfl

/-- A JSON value equals a given string value under == exactly when it is
that string constructor. -/
theorem jsonBeq_str_iff (a : Json) (s : String) :
    (a == Json.str s) = true ↔ a = .str s := by
  cases a <;> simp [BEq.beq, jsonBeq]

/-- A world with no files, no cached token, clock zero. -/
def welt_leer : World := ⟨fun _ => none, none, 0, "20251012"⟩

/-- C1: the spec says a 401 on getBenchmarkDetails or downloadBenchmark
triggers getToken(forceRefresh=true) and exactly one retry of the
original call with the new token.  The code instead refreshes without a
license path (so no token can be acquired and no license request is
issued) and re-invokes get_benchmark_details with the token argument
omitted, raising a TypeError; download_benchmark even re-invokes
get_benchmark_details instead of itself.  Evaluated at a scripted 401:
both calls end in the escaped TypeError, the trace holds the single
original request and no retry, no license POST, no new token. -/
theorem C1_retry_divergenz :
    get_benchmark_details welt_leer "106" (.str "alt") [.resp ⟨401, "", none⟩] =
      (.error (.typeErr fehlendes_argument), [],
        [.httpGet (benchmark_details_url "106") [("X-SecureSuite-Token", .str "alt")]]) ∧
    download_benchmark welt_leer "106" (.str "alt") [.resp ⟨401, "", none⟩] =
      (.error (.typeErr fehlendes_argument), [],
        [.httpGet (benchmark_download_url "106")
          [("X-SecureSuite-Token", .str "alt"), ("Accept", .str "application/zip")]]) :=
  ⟨rfl, rfl⟩

/-- Modelled from the claim C5 as literally stated: the extension is
compared verbatim and the payload head is inspected without stripping;
kept for comparison with the source's content_type_bestimmen. -/
def spec_format_aufloesung (pfad inhalt : String) : String :=
  if py_endswith pfad ".xml" then "application/xml"
  else if py_endswith pfad ".json" then "application/json"
  else if py_startswith inhalt "<" then "application/xml"
  else if py_startswith inhalt "\x7b" then "application/json"
  else "application/xml"

/-- C5 counterexample: the code strips whitespace before sniffing and
lowercases the path before the extension match, the claim does not.  A
payload with a leading blank sniffs as record-notation in the code but
defaults to structured-markup under the claim; an upper-case .XML path
resolves by extension in the code but by content under the claim. -/
theorem C5_gegenbeispiel :
    content_type_bestimmen "lizenz.txt" " \x7b\"k\": 1\x7d" = "application/json" ∧
    spec_format_aufloesung "lizenz.txt" " \x7b\"k\": 1\x7d" = "application/xml" ∧
    content_type_bestimmen "LIZENZ.XML" "\x7b\"k\": 1\x7d" = "application/xml" ∧
    spec_format_aufloesung "LIZENZ.XML" "\x7b\"k\": 1\x7d" = "application/json" := by
  refine ⟨?_, ?_, ?_, ?_⟩ <;> decide

/-- C5 (amended): resolution order on the lowercased path and the
whitespace-stripped payload: .xml extension gives structured-markup,
.json gives record-notation regardless of content; otherwise a stripped
payload starting with < gives structured-markup, with a brace gives
record-notation, and anything else defaults to structured-markup. -/
theorem C5_amended (pfad inhalt : String) :
    (py_endswith (py_lower pfad) ".xml" = true →
      content_type_bestimmen pfad inhalt = "application/xml") ∧
    (py_endswith (py_lower pfad) ".xml" = false →
      py_endswith (py_lower pfad) ".json" = true →
      content_type_bestimmen pfad inhalt = "application/json") ∧
    (py_endswith (py_lower pfad) ".xml" = false →
      py_endswith (py_lower pfad) ".json" = false →
      py_startswith (py_strip inhalt) "<" = true →
      content_type_bestimmen pfad inhalt = "application/xml") ∧
    (py_endswith (py_lower pfad) ".xml" = false →
      py_endswith (py_lower pfad) ".json" = false →
      py_startswith (py_strip inhalt) "<" = false →
      py_startswith (py_strip inhalt) "\x7b" = true →
      content_type_bestimmen pfad inhalt = "application/json") ∧
    (py_endswith (py_lower pfad) ".xml" = false →
      py_endswith (py_lower pfad) ".json" = false →
      py_startswith (py_strip inhalt) "<" = false →
      py_startswith (py_strip inhalt) "\x7b" = false →
      content_type_bestimmen pfad inhalt = "application/xml") := by
  refine ⟨?_, ?_, ?_, ?_, ?_⟩ <;> intros <;> simp_all [content_type_bestimmen]

/-- C5 witness: a path without a recognized extension and a payload
whose stripped content starts with a brace resolves to record-notation. -/
theorem C5_amended_witness :
    content_type_bestimmen "lizenz.key" " \x7bkey\x7d" = "application/json" :=
  (C5_amended "lizenz.key" " \x7bkey\x7d").2.2.2.1 (by decide) (by decide)
    (by decide) (by decide)

/-- C6: the spec says getBenchmarkDetails returns the detail data on a
200 response.  The `return response.json()` line is commented out in
the source: on a 200 with a JSON body the function prints the body and
returns None.  Evaluated at such a response: the result is None even
though the body parsed. -/
theorem C6_kein_rueckgabewert :
    get_benchmark_details welt_leer "106" (.str "tok")
        [.resp ⟨200, "", some (.obj [("benchmarkTitle", .str "CIS Win10")])⟩] =
      (.ok none, [],
        [.httpGet (benchmark_details_url "106") [("X-SecureSuite-Token", .str "tok")]]) :=
  rfl

/-- C7 counterexample: download_benchmark performs no status validation
outside the 401 branch.  On a scripted 404 it writes the error body to
the dated zip file and returns that file name instead of none. -/
theorem C7_gegenbeispiel :
    download_benchmark welt_leer "106" (.str "tok") [.resp ⟨404, "Not found", none⟩] =
      (.ok (some "benchmark_106_20251012.zip"), [],
        [.httpGet (benchmark_download_url "106")
          [("X-SecureSuite-Token", .str "tok"), ("Accept", .str "application/zip")],
         .fileWriteBytes "benchmark_106_20251012.zip" "Not found"]) :=
  rfl

/-- C7 (amended): downloadBenchmark treats every non-401 response as a
success regardless of status: it writes the response body to
benchmark_id_date.zip and returns that file name; only transport
failures (and the broken 401 path) fail the call. -/
theorem C7_amended (w : World) (workbench_id : String) (token : Json)
    (r : HttpResponse) (rest : List HttpResult) (h401 : r.status ≠ 401) :
    download_benchmark w workbench_id token (.resp r :: rest) =
      (.ok (some ("benchmark_" ++ workbench_id ++ "_" ++ w.today ++ ".zip")), rest,
        [.httpGet (benchmark_download_url workbench_id)
          [("X-SecureSuite-Token", token), ("Accept", .str "application/zip")],
         .fileWriteBytes ("benchmark_" ++ workbench_id ++ "_" ++ w.today ++ ".zip")
           r.text]) := by
  simp [download_benchmark, if_neg h401]

/-- C7 witness: a 500 response still produces the zip file and returns
its name. -/
theorem C7_amended_witness :
    download_benchmark welt_leer "200" (.str "tok") [.resp ⟨500, "err", none⟩] =
      (.ok (some "benchmark_200_20251012.zip"), [],
        [.httpGet (benchmark_download_url "200")
          [("X-SecureSuite-Token", .str "tok"), ("Accept", .str "application/zip")],
         .fileWriteBytes "benchmark_200_20251012.zip" "err"]) :=
  C7_amended welt_leer "200" (.str "tok") ⟨500, "err", none⟩ [] (by decide)

/-- The derived content type is never the empty string. -/
theorem content_type_nichtleer (pfad inhalt : String) :
    content_type_bestimmen pfad inhalt ≠ "" := by
  unfold content_type_bestimmen
  split_ifs <;> decide

/-- Every run of neues_token_abrufen begins by issuing the license POST
with the given content type and the raw license payload. -/
theorem neues_token_spur (w : World) (s ct : String) (script : List HttpResult) :
    ∃ tl, (neues_token_abrufen w s ct script).2.2 =
      Event.httpPost lizenz_url ct s :: tl := by
  unfold neues_token_abrufen
  repeat' split
  all_goals exact ⟨_, rfl⟩

/-- Under a forced refresh with a readable, nonempty license file, the
trace of token_abrufen is exactly the acquisition trace: the cache is
never consulted. -/
theorem token_abrufen_force_spur (w : World) (pfad inhalt : String)
    (script : List HttpResult)
    (hPfad : pfad ≠ "") (hDatei : w.files pfad = some inhalt)
    (hInhalt : inhalt ≠ "") :
    (token_abrufen w (some pfad) true script).2.2 =
      (neues_token_abrufen w inhalt (content_type_bestimmen pfad inhalt) script).2.2 := by
  have hct := content_type_nichtleer pfad inhalt
  have h0 : token_abrufen w (some pfad) true script =
      token_abrufen_erwerb w (some pfad) script := rfl
  rw [h0]
  unfold token_abrufen_erwerb
  simp only [lizenz_aus_datei_lesen, hDatei, if_neg hPfad]
  rw [if_neg (by simp [hInhalt, hct])]
  rcases hneu : neues_token_abrufen w inhalt (content_type_bestimmen pfad inhalt) script
    with ⟨res, rest, evs⟩
  rcases res with e | o
  · rfl
  · rcases o with _ | ti
    · rfl
    · rcases h2 : pyGetItem ti "token" with e2 | tok <;> simp [h2]

/-- A world holding a valid cached token record and a license file, to
exhibit forced-refresh behaviour in the presence of a valid cache. -/
def weltC2 : World :=
  ⟨fun p => if p = "license.xml" then some "<lizenz/>" else none,
    some (some (.obj [("token", .str "abc"), ("expires_at", .num 1200)])), 0, "20251012"⟩

/-- The token-check success body used throughout. -/
def pruef_antwort : Json := .obj [("status", .str "Token Validation Check Successful.")]

/-- A 200 token-check response whose body carries the success status
yields True with the single check request in the trace. -/
theorem token_ueberpruefen_erfolg (tok : Json) (txt : String) (ant : Json)
    (rest : List HttpResult)
    (hAntHat : pyIn "status" ant = .ok true)
    (hAntSt : pyGetItem ant "status" = .ok (.str "Token Validation Check Successful.")) :
    token_ueberpruefen tok (.resp ⟨200, txt, some ant⟩ :: rest) =
      (.ok (some true), rest,
        [.httpGet token_check_url [("X-SecureSuite-Token", tok)]]) := by
  unfold token_ueberpruefen
  simp [hAntHat, hAntSt]

/-- A record that passes the local margin check and whose token the
server confirms is valid; the trace is the single check request. -/
theorem ist_token_gueltig_erfolg (w : World) (ti tok ant : Json) (e : ℚ)
    (txt : String) (rest : List HttpResult)
    (hTruthy : pyTruthy ti = true)
    (hHatAblauf : pyIn "expires_at" ti = .ok true)
    (hAblauf : pyGetItem ti "expires_at" = .ok (.num e))
    (hLokal : ¬ w.now > e - 30)
    (hTok : pyGetItem ti "token" = .ok tok)
    (hAntHat : pyIn "status" ant = .ok true)
    (hAntSt : pyGetItem ant "status" = .ok (.str "Token Validation Check Successful.")) :
    ist_token_gueltig w (some ti) (.resp ⟨200, txt, some ant⟩ :: rest) =
      (.ok (some true), rest,
        [.httpGet token_check_url [("X-SecureSuite-Token", tok)]]) := by
  unfold ist_token_gueltig
  simp [hTruthy, hHatAblauf, hAblauf, pyNum, if_neg hLokal, hTok,
    token_ueberpruefen_erfolg tok txt ant rest hAntHat hAntSt]

/-- C2 counterexample: the claim says every getToken call with
forceRefresh=true issues a license POST.  The internal callers invoke
token_abrufen(force_refresh=True) with no license path; evaluated in a
world whose cached record is present and valid (second conjunct: the
validity check succeeds against a scripted confirming server), the call
returns None, consumes no scripted response and emits no event at all,
in particular no license-exchange request. -/
theorem C2_gegenbeispiel :
    token_abrufen weltC2 none true [.resp ⟨200, "", some pruef_antwort⟩] =
      (.ok none, [.resp ⟨200, "", some pruef_antwort⟩], []) ∧
    ist_token_gueltig weltC2 (token_laden weltC2) [.resp ⟨200, "", some pruef_antwort⟩] =
      (.ok (some true), [],
        [.httpGet token_check_url [("X-SecureSuite-Token", .str "abc")]]) := by
  refine ⟨rfl, ?_⟩
  exact ist_token_gueltig_erfolg weltC2
    (.obj [("token", .str "abc"), ("expires_at", .num 1200)]) (.str "abc")
    pruef_antwort 1200 "" [] rfl rfl rfl (by norm_num [weltC2]) rfl rfl rfl

/-- C2 (amended): getToken with forceRefresh=true never consults or
returns the cached token; whenever a nonempty credential path is
supplied and the file is readable with nonempty content, the first
emitted event is the license-exchange POST of the raw payload, even if
a valid cached record exists.  Without a usable credential path (as at
all internal call sites) no license request is issued. -/
theorem C2_amended (w : World) (pfad inhalt : String) (script : List HttpResult)
    (hPfad : pfad ≠ "") (hDatei : w.files pfad = some inhalt)
    (hInhalt : inhalt ≠ "") :
    ∃ tl, (token_abrufen w (some pfad) true script).2.2 =
      Event.httpPost lizenz_url (content_type_bestimmen pfad inhalt) inhalt :: tl := by
  rw [token_abrufen_force_spur w pfad inhalt script hPfad hDatei hInhalt]
  exact neues_token_spur w inhalt (content_type_bestimmen pfad inhalt) script

/-- C2 witness: in the cached-valid world, a forced refresh with the
license path still opens with the license POST. -/
theorem C2_amended_witness :
    ∃ tl, (token_abrufen weltC2 (some "license.xml") true []).2.2 =
      Event.httpPost lizenz_url (content_type_bestimmen "license.xml" "<lizenz/>")
        "<lizenz/>" :: tl :=
  C2_amended weltC2 "license.xml" "<lizenz/>" [] (by decide) (by decide) (by decide)

/-- C3: without forceRefresh, a present cached record that passes the
local expiry check and whose token the server confirms is returned
as-is; the only event is the single token-check GET -- in particular no
license-exchange POST is issued. -/
theorem C3_cache_hit (w : World) (lp : Option String) (ti tok ant : Json) (e : ℚ)
    (txt : String) (rest : List HttpResult)
    (hLaden : token_laden w = some ti)
    (hTruthy : pyTruthy ti = true)
    (hHatAblauf : pyIn "expires_at" ti = .ok true)
    (hAblauf : pyGetItem ti "expires_at" = .ok (.num e))
    (hLokal : ¬ w.now > e - 30)
    (hTok : pyGetItem ti "token" = .ok tok)
    (hAntHat : pyIn "status" ant = .ok true)
    (hAntSt : pyGetItem ant "status" = .ok (.str "Token Validation Check Successful.")) :
    token_abrufen w lp false (.resp ⟨200, txt, some ant⟩ :: rest) =
      (.ok (some tok), rest,
        [.httpGet token_check_url [("X-SecureSuite-Token", tok)]]) := by
  have hIst := ist_token_gueltig_erfolg w ti tok ant e txt rest hTruthy hHatAblauf
    hAblauf hLokal hTok hAntHat hAntSt
  unfold token_abrufen
  simp [hLaden, hTruthy, hIst, hTok]

/-- A world whose cache holds a far-from-expired record, clock zero. -/
def weltC3 : World := ⟨fun _ => none,
  some (some (.obj [("token", .str "abc"), ("expires_at", .num 1200)])), 0, "20251012"⟩

/-- C3 witness: the cached token abc is returned against a confirming
server with exactly the one check request. -/
theorem C3_cache_hit_witness :
    token_abrufen weltC3 none false [.resp ⟨200, "", some pruef_antwort⟩] =
      (.ok (some (.str "abc")), [],
        [.httpGet token_check_url [("X-SecureSuite-Token", .str "abc")]]) :=
  C3_cache_hit weltC3 none (.obj [("token", .str "abc"), ("expires_at", .num 1200)])
    (.str "abc") pruef_antwort 1200 "" [] rfl rfl rfl rfl (by norm_num [weltC3]) rfl rfl rfl

/-- C4: a successful acquisition at clock time T persists (and returns)
a record whose expiry is T + 1200 seconds (20 minutes); the local tier
of the validity check passes that record on to the server check for any
clock value at most T + 1200 - 30 and rejects it as False, without any
request, for any later clock value. -/
theorem C4_ablaufzeit (w : World) (schluessel ct txt : String) (daten tok : Json)
    (rest : List HttpResult)
    (hHat : pyIn "token" daten = .ok true)
    (hTok : pyGetItem daten "token" = .ok tok) :
    neues_token_abrufen w schluessel ct (.resp ⟨200, txt, some daten⟩ :: rest) =
      (.ok (some (token_record tok w.now)), rest,
        [.httpPost lizenz_url ct schluessel,
         .fileWriteJson TOKEN_FILE 0 (token_record tok w.now)]) ∧
    (∀ w2 : World, ∀ s2 : List HttpResult, w2.now ≤ w.now + 1200 - 30 →
      ist_token_gueltig w2 (some (token_record tok w.now)) s2 =
        token_ueberpruefen tok s2) ∧
    (∀ w2 : World, ∀ s2 : List HttpResult, w2.now > w.now + 1200 - 30 →
      ist_token_gueltig w2 (some (token_record tok w.now)) s2 =
        (.ok (some false), s2, [])) := by
  have hTr : pyTruthy (token_record tok w.now) = true := rfl
  have hIn : pyIn "expires_at" (token_record tok w.now) = .ok true := by
    simp [pyIn, token_record]
  have hG1 : pyGetItem (token_record tok w.now) "expires_at" =
      .ok (.num (w.now + 1200)) := by
    simp [pyGetItem, token_record, List.lookup]
  have hG2 : pyGetItem (token_record tok w.now) "token" = .ok tok := by
    simp [pyGetItem, token_record, List.lookup]
  refine ⟨?_, ?_, ?_⟩
  · unfold neues_token_abrufen token_speichern
    simp [hHat, hTok, token_record]
  · intro w2 s2 h
    unfold ist_token_gueltig
    simp [hTr, hIn, hG1, hG2, pyNum, if_neg (not_lt.mpr h)]
  · intro w2 s2 h
    unfold ist_token_gueltig
    simp [hTr, hIn, hG1, pyNum, if_pos h]

/-- A world for acquiring at clock 0. -/
def weltC4 : World := ⟨fun _ => none, none, 0, "20251012"⟩

/-- A world whose clock is far past the expiry margin. -/
def weltC4b : World := ⟨fun _ => none, none, 100000, "20251012"⟩

/-- C4 witness: acquiring at clock 0 persists expiry 1200; a check at
clock 100000 fails locally with no request. -/
theorem C4_ablaufzeit_witness :
    neues_token_abrufen weltC4 "<lizenz/>" "application/xml"
        [.resp ⟨200, "", some (.obj [("token", .str "abc")])⟩] =
      (.ok (some (token_record (.str "abc") weltC4.now)), [],
        [.httpPost lizenz_url "application/xml" "<lizenz/>",
         .fileWriteJson TOKEN_FILE 0 (token_record (.str "abc") weltC4.now)]) ∧
    ist_token_gueltig weltC4b (some (token_record (.str "abc") weltC4.now)) [] =
      (.ok (some false), [], []) :=
  ⟨(C4_ablaufzeit weltC4 "<lizenz/>" "application/xml" "" (.obj [("token", .str "abc")])
      (.str "abc") [] rfl rfl).1,
   (C4_ablaufzeit weltC4 "<lizenz/>" "application/xml" "" (.obj [("token", .str "abc")])
      (.str "abc") [] rfl rfl).2.2 weltC4b [] (by norm_num [weltC4, weltC4b])⟩

/-- C8: a 200 response on /benchmarks whose JSON body is an object
without a Benchmarks key makes listBenchmarks return failure; the trace
holds only the GET, in particular no write to the benchmark-list
file. -/
theorem C8_fehlender_schluessel (ausf : Bool) (token : Option Json)
    (txt : String) (kvs : List (String × Json)) (rest : List HttpResult)
    (hKein : kvs.any (fun kv => kv.1 == "Benchmarks") = false) :
    list_available_benchmarks ausf token (.resp ⟨200, txt, some (.obj kvs)⟩ :: rest) =
      (.ok false, rest, [.httpGet benchmarks_url (benchmark_kopfzeilen token)]) := by
  unfold list_available_benchmarks
  simp [pyIn, hKein]

/-- C8 witness: a body with only an unrelated key fails and writes
nothing. -/
theorem C8_fehlender_schluessel_witness :
    list_available_benchmarks false none
        [.resp ⟨200, "", some (.obj [("Fehler", .str "kein Feld")])⟩] =
      (.ok false, [], [.httpGet benchmarks_url (benchmark_kopfzeilen none)]) :=
  C8_fehlender_schluessel false none "" [("Fehler", .str "kein Feld")] [] (by decide)

/-- C9 counterexample: the claim says the response body is persisted
verbatim with no transformation.  The source parses the body and
re-serializes it with json.dump(indent=2): for the compact body below
the persisted text is the pretty-printed rendering, which differs from
the body text. -/
theorem C9_gegenbeispiel :
    list_available_benchmarks false none
        [.resp ⟨200, "\x7b\"Benchmarks\": []\x7d", some (.obj [("Benchmarks", .arr [])])⟩] =
      (.ok true, [],
        [.httpGet benchmarks_url (benchmark_kopfzeilen none),
         .fileWriteJson BENCHMARK_LIST 2 (.obj [("Benchmarks", .arr [])])]) ∧
    json_dump_indent2 (.obj [("Benchmarks", .arr [])]) =
      "\x7b\n  \"Benchmarks\": []\n\x7d" ∧
    "\x7b\n  \"Benchmarks\": []\n\x7d" ≠ "\x7b\"Benchmarks\": []\x7d" := by
  refine ⟨rfl, ?_, by decide⟩
  simp only [json_dump_indent2, json_dump_i2, json_dump_felder, json_string_dump,
    json_escape_zeichen, einrueckung]
  decide

/-- C9 (amended): on a 200 response whose JSON body carries a Benchmarks
key, listBenchmarks succeeds and persists the parsed body, re-serialized
as pretty-printed JSON (indent 2), to the fixed benchmark-list file --
a semantic mirror of the response, not a byte-for-byte copy. -/
theorem C9_amended (ausf : Bool) (token : Option Json) (txt : String)
    (kvs : List (String × Json)) (rest : List HttpResult)
    (hHat : kvs.any (fun kv => kv.1 == "Benchmarks") = true) :
    list_available_benchmarks ausf token (.resp ⟨200, txt, some (.obj kvs)⟩ :: rest) =
      (.ok true, rest,
        [.httpGet benchmarks_url (benchmark_kopfzeilen token),
         .fileWriteJson BENCHMARK_LIST 2 (.obj kvs)]) := by
  unfold list_available_benchmarks
  simp [pyIn, hHat]

/-- C9 witness: a body with a Benchmarks key is persisted as parsed. -/
theorem C9_amended_witness :
    list_available_benchmarks false none
        [.resp ⟨200, "", some (.obj [("Benchmarks", .arr [.str "b1"])])⟩] =
      (.ok true, [],
        [.httpGet benchmarks_url (benchmark_kopfzeilen none),
         .fileWriteJson BENCHMARK_LIST 2 (.obj [("Benchmarks", .arr [.str "b1"])])]) :=
  C9_amended false none "" [("Benchmarks", .arr [.str "b1"])] [] (by decide)

/-- Appending to the empty string is the identity. -/
theorem leer_anhang (s : String) : "" ++ s = s := rfl

/-- When every iteration succeeds, the loop writes the concatenation of
the produced rows after the already accumulated output. -/
theorem zeilen_schreiben_eq (bs : List Json) (acc : String)
    (h : ∀ b ∈ bs, zeile_ok b = true) :
    zeilen_schreiben acc bs = (acc ++ konkat (zeilen_liste bs), true) := by
  induction bs generalizing acc with
  | nil => simp [zeilen_schreiben, zeilen_liste, konkat]
  | cons b rest ih =>
    have hb : zeile_ok b = true := h b (List.mem_cons_self b rest)
    have hrest : ∀ x ∈ rest, zeile_ok x = true :=
      fun x hx => h x (List.mem_cons_of_mem b hx)
    cases hz : zeile_fuer_benchmark b with
    | error e => simp [zeile_ok, hz] at hb
    | ok o =>
      cases o with
      | none =>
        simp [zeilen_schreiben, zeilen_liste, hz, ih acc hrest]
      | some z =>
        simp [zeilen_schreiben, zeilen_liste, hz, ih (acc ++ z) hrest, konkat,
          String.append_assoc]

/-- A succeeding loop iteration produces no row exactly when the entry's
assessmentStatus is Manual. -/
theorem zeile_manual_iff (b : Json) (h : zeile_ok b = true) :
    zeile_fuer_benchmark b = .ok none ↔ benchmark_status b = .str "Manual" := by
  cases b with
  | obj kvs =>
    by_cases hM : ((kvs.lookup "assessmentStatus").getD (.str "N/A")
        == Json.str "Manual") = true
    · constructor
      · intro _
        exact (jsonBeq_str_iff _ _).mp hM
      · intro _
        simp [zeile_fuer_benchmark, benchmark_status, hM]
    · have hne : benchmark_status (.obj kvs) ≠ .str "Manual" := by
        intro hEq
        exact hM ((jsonBeq_str_iff _ _).mpr hEq)
      constructor
      · intro heq
        exfalso
        rw [Bool.not_eq_true] at hM
        simp only [zeile_fuer_benchmark, benchmark_status, hM] at heq
        repeat' split at heq
        all_goals simp_all
      · intro hEq
        exact absurd hEq hne
  | null => simp [zeile_ok, zeile_fuer_benchmark] at h
  | bool v => simp [zeile_ok, zeile_fuer_benchmark] at h
  | num q => simp [zeile_ok, zeile_fuer_benchmark] at h
  | str s => simp [zeile_ok, zeile_fuer_benchmark] at h
  | arr xs => simp [zeile_ok, zeile_fuer_benchmark] at h

/-- On well-formed entries the row list has exactly one row per
non-Manual benchmark. -/
theorem zeilen_liste_laenge (bs : List Json)
    (h : ∀ b ∈ bs, zeile_ok b = true) :
    (zeilen_liste bs).length =
      (bs.filter (fun b => !(benchmark_status b == Json.str "Manual"))).length := by
  induction bs with
  | nil => rfl
  | cons b rest ih =>
    have hb : zeile_ok b = true := h b (List.mem_cons_self b rest)
    have hrest : ∀ x ∈ rest, zeile_ok x = true :=
      fun x hx => h x (List.mem_cons_of_mem b hx)
    have hiff := zeile_manual_iff b hb
    cases hz : zeile_fuer_benchmark b with
    | error e => simp [zeile_ok, hz] at hb
    | ok o =>
      cases o with
      | none =>
        have hMan : benchmark_status b = .str "Manual" := hiff.mp hz
        have hbeq : (benchmark_status b == Json.str "Manual") = true :=
          (jsonBeq_str_iff _ _).mpr hMan
        simp [zeilen_liste, hz, List.filter, hbeq, ih hrest]
      | some z =>
        have hMan : benchmark_status b ≠ .str "Manual" := by
          intro hEq
          have h2 := hiff.mpr hEq
          rw [hz] at h2
          cases h2
        have hbeq : (benchmark_status b == Json.str "Manual") = false := by
          rw [← Bool.not_eq_true]
          intro h2
          exact hMan ((jsonBeq_str_iff _ _).mp h2)
        simp [zeilen_liste, hz, List.filter, hbeq, ih hrest]

/-- C10: for an input file whose Benchmarks array holds well-formed
entries (each loop iteration runs without raising), analyse_benchmarks
succeeds and writes the header followed by exactly the produced rows:
one row per benchmark whose assessmentStatus is not Manual (the length
equation), while every Manual benchmark contributes no row and every
non-Manual one contributes a row (the equivalences). -/
theorem C10_manual_filter (bs : List Json) (extra : List (String × Json))
    (hWf : ∀ b ∈ bs, zeile_ok b = true) :
    analyse_benchmarks (some (some (.obj (("Benchmarks", .arr bs) :: extra)))) =
      (true, [.fileWriteText "benchmarks.txt"
        (kopfzeile ++ konkat (zeilen_liste bs))]) ∧
    (zeilen_liste bs).length =
      (bs.filter (fun b => !(benchmark_status b == Json.str "Manual"))).length ∧
    (∀ b ∈ bs, (zeile_fuer_benchmark b = .ok none ↔
      benchmark_status b = .str "Manual")) ∧
    (∀ b ∈ bs, benchmark_status b ≠ .str "Manual" →
      ∃ z, zeile_fuer_benchmark b = .ok (some z)) := by
  refine ⟨?_, zeilen_liste_laenge bs hWf,
    fun b hb => zeile_manual_iff b (hWf b hb), ?_⟩
  · have h1 : pyIn "Benchmarks" (Json.obj (("Benchmarks", .arr bs) :: extra)) =
        .ok true := by
      simp [pyIn]
    have h2 : pyGetItem (Json.obj (("Benchmarks", .arr bs) :: extra)) "Benchmarks" =
        .ok (.arr bs) := by
      simp [pyGetItem, List.lookup]
    simp only [analyse_benchmarks, h1, h2, zeilen_schreiben_eq bs "" hWf, leer_anhang]
  · intro b hb hne
    cases hz : zeile_fuer_benchmark b with
    | error e =>
      have hb2 := hWf b hb
      simp [zeile_ok, hz] at hb2
    | ok o =>
      cases o with
      | none => exact absurd ((zeile_manual_iff b (hWf b hb)).mp hz) hne
      | some z => exact ⟨z, rfl⟩

/-- A Manual benchmark entry. -/
def beispiel_manual : Json := .obj [("workbenchId", .num 1),
  ("benchmarkTitle", .str "T1"), ("benchmarkVersion", .str "1.0"),
  ("assessmentStatus", .str "Manual")]

/-- An Automated benchmark entry with formats and a profile. -/
def beispiel_auto : Json := .obj [("workbenchId", .num 2),
  ("benchmarkTitle", .str "T2"), ("benchmarkVersion", .str "2.0"),
  ("assessmentStatus", .str "Automated"),
  ("availableFormats", .arr [.str "SCAP", .str "JSON"]),
  ("profiles", .arr [.obj [("profileTitle", .str "Level 1")]])]

/-- C10 witness: on a file with one Manual and one Automated benchmark
the call succeeds and writes the header plus the produced rows. -/
theorem C10_manual_filter_witness :
    analyse_benchmarks (some (some (.obj
        [("Benchmarks", .arr [beispiel_manual, beispiel_auto])]))) =
      (true, [.fileWriteText "benchmarks.txt"
        (kopfzeile ++ konkat (zeilen_liste [beispiel_manual, beispiel_auto]))]) :=
  (C10_manual_filter [beispiel_manual, beispiel_auto] []
    (by intro b hb; fin_cases hb <;> decide)).1

end Cis

